import Mathlib

/-
Shallow embedding of the POSIX-style ceph adapter in
src/0.1/src/XrdCeph/XrdCephPosix.cc.

Modelling conventions:
  * C++ std::string values are modelled as lists of characters (Str);
    std::string::find / substr become strFind / List.drop / List.take.
  * Machine integers are Nat (unsigned) or Int (signed return codes); the
    width checks of the source (32-bit stripe count, 64-bit stripe unit and
    object size) appear as explicit comparisons against 2 ^ 32 - 1 / 2 ^ 64 - 1.
  * The external librados / libradosstriper calls are modelled by an oracle
    of their integer return codes (RadosOracle) and by a functional object
    store (Store) that maps an object name to its byte content and mtime;
    rados returns negative errno values (the source itself compares the
    result of striper->stat against -ENOENT).
  * The C++ exceptions std::invalid_argument / std::out_of_range thrown by
    the parsing helpers become an Except ParseErr result threaded through
    the parser exactly where the source lets the exception propagate.
  * g_cluster is a raw pointer in the source; its observable pointer states
    are modelled by Ptr: null (0), valid (points to a live object), dangling
    (points to an already-deleted object).  Running delete on a dangling
    pointer is undefined behaviour, modelled as the absence of a result.
  * The descriptor-level entry points (open/read/write/stat/...) call
    getRadosStriper internally; in the descriptor-level model that lookup is
    abstracted by a Boolean striperOk argument (false = the lookup returned
    a null striper, the path on which the source returns -EINVAL), and the
    striper operations act on the Store carried in FdState.
-/

abbrev Str := List Char

/-- Errno values used by the source (Linux numeric values). -/
def ENOENT : Int := 2

def EBADF : Int := 9

def EEXIST : Int := 17

def EINVAL : Int := 22

/-- Linux open(2) flag bits used by the source. -/
def O_WRONLY : Nat := 1

def O_RDWR : Nat := 2

def O_CREAT : Nat := 64

def O_EXCL : Nat := 128

def O_TRUNC : Nat := 512

/-- Characters skipped by strtoul/strtoull before the numeral (C isspace). -/
def isSpaceC (c : Char) : Bool :=
  c == ' ' || c == '\t' || c == '\n' || c == '\x0b' || c == '\x0c' || c == '\r'

/-- Decimal digit test used by strtoul/strtoull in base 10. -/
def isDigitC (c : Char) : Bool :=
  decide ('0' ≤ c) && decide (c ≤ '9')

/-- Value of a digit string, most significant digit first. -/
def digitsVal (l : Str) : Nat :=
  l.foldl (fun a c => 10 * a + (c.toNat - 48)) 0

/-- Result of the C library conversion: the returned value, whether errno was
set to ERANGE, and the characters after the end pointer. -/
structure StrtoullResult where
  value : Nat
  rangeErr : Bool
  rest : Str
deriving DecidableEq

/-- Model of strtoull(s, &end, 10) (and of strtoul, which has the same 64-bit
range on the LP64 target the source is built for): skip leading whitespace,
accept an optional sign, consume the longest run of decimal digits.  If no
digit was consumed the end pointer is reset to the start of the string and 0
is returned without error (so the empty string converts to 0); a magnitude
above 2 ^ 64 - 1 clamps and sets ERANGE; a leading minus sign negates the
value modulo 2 ^ 64 (C semantics) without setting ERANGE. -/
def strtoull10 (s : Str) : StrtoullResult :=
  let afterSpace := s.dropWhile isSpaceC
  let signAndRest : Bool × Str :=
    match afterSpace with
    | '-' :: r => (true, r)
    | '+' :: r => (false, r)
    | _ => (false, afterSpace)
  let digits := signAndRest.2.takeWhile isDigitC
  let rest := signAndRest.2.dropWhile isDigitC
  if digits.isEmpty then { value := 0, rangeErr := false, rest := s }
  else if digitsVal digits > 2 ^ 64 - 1 then
    { value := 2 ^ 64 - 1, rangeErr := true, rest := rest }
  else
    { value := if signAndRest.1 then (2 ^ 64 - digitsVal digits) % 2 ^ 64 else digitsVal digits,
      rangeErr := false, rest := rest }

/-- The two exceptions thrown by the parsing helpers of the source:
std::invalid_argument and std::out_of_range. -/
inductive ParseErr
  | invalidArgument
  | outOfRange
deriving DecidableEq

/-- Embedding of the file-local stoull helper: strtoull, then throw
invalid_argument when the end pointer is not the terminating NUL, then throw
out_of_range when errno is ERANGE. -/
def stoull (s : Str) : Except ParseErr Nat :=
  let r := strtoull10 s
  if r.rest ≠ [] then .error .invalidArgument
  else if r.rangeErr then .error .outOfRange
  else .ok r.value

/-- Embedding of the file-local stoui helper: strtoul, then throw
invalid_argument on trailing characters, then throw out_of_range when errno
is ERANGE or the value exceeds the 32-bit unsigned maximum. -/
def stoui (s : Str) : Except ParseErr Nat :=
  let r := strtoull10 s
  if r.rest ≠ [] then .error .invalidArgument
  else if r.rangeErr || decide (r.value > 2 ^ 32 - 1) then .error .outOfRange
  else .ok r.value

/-- The CephFile struct: logical name plus the resolved addressing/layout
fields. -/
structure CephFile where
  name : Str
  pool : Str
  userId : Str
  nbStripes : Nat
  stripeUnit : Nat
  objectSize : Nat
deriving DecidableEq

/-- The initial value of the global g_defaultParams (the source allows it to
be replaced through ceph_posix_set_defaults; none of the verified claims
exercises that call, so the model uses the initial value). -/
def g_defaultParams : CephFile :=
  { name := []
    pool := "default".toList
    userId := "admin".toList
    nbStripes := 1
    stripeUnit := 4 * 1024 * 1024
    objectSize := 4 * 1024 * 1024 }

/-- The five XrdOucEnv entries consulted by the parser; a missing entry is
the null result of env->Get. -/
structure EnvM where
  cephUserId : Option Str
  cephPool : Option Str
  cephNbStripes : Option Str
  cephStripeUnit : Option Str
  cephObjectSize : Option Str
deriving DecidableEq

/-- The XrdOucEnv with none of the five entries set. -/
def emptyEnv : EnvM :=
  { cephUserId := none
    cephPool := none
    cephNbStripes := none
    cephStripeUnit := none
    cephObjectSize := none }

/-- env ? env->Get(key) : null — the environment pointer itself may be null. -/
def envGet (env : Option EnvM) (key : EnvM → Option Str) : Option Str :=
  match env with
  | none => none
  | some e => key e

/-- Scan a list for the first character satisfying p, indices starting at i. -/
def strFindAux (p : Char → Bool) : Str → Nat → Option Nat
  | [], _ => none
  | c :: rest, i => if p c then some i else strFindAux p rest (i + 1)

/-- Model of std::string::find(c, off): index of the first occurrence of the
character at or after position off, none for npos. -/
def strFind (p : Char → Bool) (s : Str) (off : Nat) : Option Nat :=
  strFindAux p (s.drop off) off

/-- fillCephUserId: default the user id, then take everything before an '@'
if present, otherwise consult env entry cephUserId.  Returns the position of
the first character after the user id. -/
def fillCephUserId (params : Str) (env : Option EnvM) (file : CephFile) : Nat × CephFile :=
  let file := { file with userId := g_defaultParams.userId }
  match strFind (· == '@') params 0 with
  | some atPos => (atPos + 1, { file with userId := params.take atPos })
  | none =>
    match envGet env EnvM.cephUserId with
    | some u => (0, { file with userId := u })
    | none => (0, file)

/-- fillCephPool: default the pool, then take the text up to the next comma;
with no comma, an exhausted params string consults env entry cephPool and
otherwise the remainder of params is the pool.  Returns the position after
the pool. -/
def fillCephPool (params : Str) (offset : Nat) (env : Option EnvM) (file : CephFile) :
    Nat × CephFile :=
  let file := { file with pool := g_defaultParams.pool }
  match strFind (· == ',') params offset with
  | none =>
    if params.length = offset then
      match envGet env EnvM.cephPool with
      | some p => (params.length, { file with pool := p })
      | none => (params.length, file)
    else (params.length, { file with pool := params.drop offset })
  | some comPos =>
    (comPos + 1, { file with pool := (params.drop offset).take (comPos - offset) })

/-- fillCephNbStripes: default the stripe count, then parse the next
comma-delimited field (or env entry cephNbStripes) with stoui; parse errors
propagate like the C++ exceptions. -/
def fillCephNbStripes (params : Str) (offset : Nat) (env : Option EnvM) (file : CephFile) :
    Except ParseErr (Nat × CephFile) :=
  let file := { file with nbStripes := g_defaultParams.nbStripes }
  match strFind (· == ',') params offset with
  | none =>
    if params.length = offset then
      match envGet env EnvM.cephNbStripes with
      | some v => do
        let n ← stoui v
        pure (params.length, { file with nbStripes := n })
      | none => pure (params.length, file)
    else do
      let n ← stoui (params.drop offset)
      pure (params.length, { file with nbStripes := n })
  | some comPos => do
    let n ← stoui ((params.drop offset).take (comPos - offset))
    pure (comPos + 1, { file with nbStripes := n })

/-- fillCephStripeUnit: as fillCephNbStripes but with stoull and env entry
cephStripeUnit. -/
def fillCephStripeUnit (params : Str) (offset : Nat) (env : Option EnvM) (file : CephFile) :
    Except ParseErr (Nat × CephFile) :=
  let file := { file with stripeUnit := g_defaultParams.stripeUnit }
  match strFind (· == ',') params offset with
  | none =>
    if params.length = offset then
      match envGet env EnvM.cephStripeUnit with
      | some v => do
        let n ← stoull v
        pure (params.length, { file with stripeUnit := n })
      | none => pure (params.length, file)
    else do
      let n ← stoull (params.drop offset)
      pure (params.length, { file with stripeUnit := n })
  | some comPos => do
    let n ← stoull ((params.drop offset).take (comPos - offset))
    pure (comPos + 1, { file with stripeUnit := n })

/-- fillCephObjectSize: default the object size, then parse the rest of
params (or env entry cephObjectSize) with stoull. -/
def fillCephObjectSize (params : Str) (offset : Nat) (env : Option EnvM) (file : CephFile) :
    Except ParseErr CephFile :=
  let file := { file with objectSize := g_defaultParams.objectSize }
  if params.length = offset then
    match envGet env EnvM.cephObjectSize with
    | some v => do
      let n ← stoull v
      pure { file with objectSize := n }
    | none => pure file
  else do
    let n ← stoull (params.drop offset)
    pure { file with objectSize := n }

/-- fillCephFileParams: parse the params one by one; an exception from any
numeric field aborts the whole resolution. -/
def fillCephFileParams (params : Str) (env : Option EnvM) (file : CephFile) :
    Except ParseErr CephFile := do
  let (afterUser, file) := fillCephUserId params env file
  let (afterPool, file) := fillCephPool params afterUser env file
  let (afterNbStripes, file) ← fillCephNbStripes params afterPool env file
  let (afterStripeUnit, file) ← fillCephStripeUnit params afterNbStripes env file
  fillCephObjectSize params afterStripeUnit env file

/-- fillCephFile: split the path at the first colon; without a colon the
whole path is the name and the params string is empty. -/
def fillCephFile (path : Str) (env : Option EnvM) (file : CephFile) :
    Except ParseErr CephFile :=
  match strFind (· == ':') path 0 with
  | none => fillCephFileParams [] env { file with name := path }
  | some colonPos =>
    fillCephFileParams (path.take colonPos) env { file with name := path.drop (colonPos + 1) }

/-- getCephFile: resolve a path against a default-constructed CephFile (its
string fields start empty; every field is overwritten by the fill helpers
before being read). -/
def getCephFile (path : Str) (env : Option EnvM) : Except ParseErr CephFile :=
  fillCephFile path env
    { name := [], pool := [], userId := [], nbStripes := 0, stripeUnit := 0, objectSize := 0 }

/-- Observable states of the raw pointer g_cluster: null (0), valid (a live
librados::Rados object), dangling (the object was deleted but the pointer
was not reset to 0). -/
inductive Ptr
  | null
  | valid
  | dangling
deriving DecidableEq

/-- The process-wide pool state: the key sets of the maps g_radosStripers
and g_ioCtx (the pointer values held by the maps are abstracted to key
presence) and the g_cluster pointer. -/
structure PoolState where
  g_radosStripers : List Str
  g_ioCtx : List Str
  g_cluster : Ptr
deriving DecidableEq

/-- Return codes of the external librados / libradosstriper calls made
during session creation, in call order: cluster init, conf_read_file,
connect, ioctx_create, striper_create, and the three layout setters. -/
structure RadosOracle where
  initRc : Int
  confReadFileRc : Int
  connectRc : Int
  ioctxCreateRc : Int
  striperCreateRc : Int
  stripeCountRc : Int
  stripeUnitRc : Int
  objectSizeRc : Int
deriving DecidableEq

/-- The stringified layout-equivalence key built at the top of
getRadosStriper: userId '@' pool ',' nbStripes ',' stripeUnit ','
objectSize. -/
def layoutKey (f : CephFile) : Str :=
  f.userId ++ '@' :: f.pool ++ ',' :: (toString f.nbStripes).toList
    ++ ',' :: (toString f.stripeUnit).toList ++ ',' :: (toString f.objectSize).toList

/-- getRadosStriper.  On a key hit the pooled session is returned and the
state is untouched.  On a miss: if g_cluster is null it is created (init,
conf_read_file, conf_parse_env, connect; each failing return code deletes
the cluster and nulls the pointer); then the ioctx, the striper and the
three layout setters run, and every failing return code deletes the
striper and ioctx built for this attempt, shuts the cluster down, deletes
it and nulls the pointer — unconditionally, whether or not other pooled
sessions exist — and the function returns a null striper.  On full success
the key is inserted into g_ioCtx and g_radosStripers.  (The source's
checks of the result of new for null are dead branches on this target and
are not modelled; a returned session is abstracted by its key.) -/
def getRadosStriper (o : RadosOracle) (file : CephFile) (s : PoolState) :
    Option Str × PoolState :=
  let userAtPool := layoutKey file
  if s.g_radosStripers.contains userAtPool then (some userAtPool, s)
  else
    let clusterStep : Option PoolState :=
      if s.g_cluster == Ptr.null then
        if o.initRc ≠ 0 then none
        else if o.confReadFileRc ≠ 0 then none
        else if o.connectRc ≠ 0 then none
        else some { s with g_cluster := Ptr.valid }
      else some s
    match clusterStep with
    | none => (none, { s with g_cluster := Ptr.null })
    | some s1 =>
      if o.ioctxCreateRc ≠ 0 then (none, { s1 with g_cluster := Ptr.null })
      else if o.striperCreateRc ≠ 0 then (none, { s1 with g_cluster := Ptr.null })
      else if o.stripeCountRc ≠ 0 then (none, { s1 with g_cluster := Ptr.null })
      else if o.stripeUnitRc ≠ 0 then (none, { s1 with g_cluster := Ptr.null })
      else if o.objectSizeRc ≠ 0 then (none, { s1 with g_cluster := Ptr.null })
      else (some userAtPool,
        { s1 with
          g_radosStripers := userAtPool :: s1.g_radosStripers
          g_ioCtx := userAtPool :: s1.g_ioCtx })

/-- ceph_posix_disconnect_all: delete every pooled striper and ioctx, clear
both maps, then run delete on g_cluster.  The source does NOT reset
g_cluster to 0 after this delete (every other teardown site in the file
does), so after a call that deleted a live cluster the pointer is left
dangling; a later call then runs delete on an already-freed pointer, which
is undefined behaviour, modelled as none.  delete on a null pointer is a
well-defined no-op. -/
def ceph_posix_disconnect_all (s : PoolState) : Option PoolState :=
  match s.g_cluster with
  | Ptr.null => some { g_radosStripers := [], g_ioCtx := [], g_cluster := Ptr.null }
  | Ptr.valid => some { g_radosStripers := [], g_ioCtx := [], g_cluster := Ptr.dangling }
  | Ptr.dangling => none

/-- The object store behind one striper: object name to (byte content,
mtime).  The bytes are Nat values; rados return codes are negative errno
values as in the source. -/
abbrev Store := List (Str × (List Nat × Nat))

/-- First binding of a name in the store. -/
def storeLookup (st : Store) (n : Str) : Option (List Nat × Nat) :=
  match st with
  | [] => none
  | (m, v) :: rest => if m = n then some v else storeLookup rest n

/-- Replace the binding of a name (insert if absent). -/
def storeUpdate (st : Store) (n : Str) (v : List Nat × Nat) : Store :=
  match st with
  | [] => [(n, v)]
  | (m, w) :: rest => if m = n then (m, v) :: rest else (m, w) :: storeUpdate rest n v

/-- Content after writing buf at a byte offset: the object is zero-extended
up to the offset if needed, then buf overwrites in place. -/
def writeAt (data : List Nat) (offset : Nat) (buf : List Nat) : List Nat :=
  let padded := data ++ List.replicate (offset - data.length) 0
  padded.take offset ++ buf ++ padded.drop (offset + buf.length)

/-- striper->write: the whole region is accepted in one call (rc 0); a
missing object is created. -/
def striperWrite (st : Store) (n : Str) (buf : List Nat) (offset : Nat) : Int × Store :=
  match storeLookup st n with
  | some (data, t) => (0, storeUpdate st n (writeAt data offset buf, t))
  | none => (0, (n, (writeAt [] offset buf, 0)) :: st)

/-- striper->read: rc is the number of bytes read (short at end of object),
-ENOENT for a missing object. -/
def striperRead (st : Store) (n : Str) (count offset : Nat) : Int × List Nat :=
  match storeLookup st n with
  | some (data, _) =>
    (Int.ofNat ((data.drop offset).take count).length, (data.drop offset).take count)
  | none => (-ENOENT, [])

/-- Content after truncation to a size (zero-extending when growing). -/
def resize (data : List Nat) (size : Nat) : List Nat :=
  data.take size ++ List.replicate (size - data.length) 0

/-- striper->trunc: rc 0 on an existing object, -ENOENT on a missing one. -/
def striperTrunc (st : Store) (n : Str) (size : Nat) : Int × Store :=
  match storeLookup st n with
  | some (data, t) => (0, storeUpdate st n (resize data size, t))
  | none => (-ENOENT, st)

/-- striper->stat: rc 0 with size and mtime, or rc -ENOENT. -/
def striperStat (st : Store) (n : Str) : Int × Nat × Nat :=
  match storeLookup st n with
  | some (data, t) => (0, data.length, t)
  | none => (-ENOENT, 0, 0)

/-- The CephFileRef struct: a CephFile plus open flags, creation mode and
the byte cursor. -/
structure CephFileRef extends CephFile where
  flags : Nat
  mode : Nat
  offset : Nat
deriving DecidableEq

/-- The descriptor-level globals of the source: g_fds, g_filesOpenForWrite
(a multiset as a list), g_nextCephFd, together with the object store the
resolved striper operates on. -/
structure FdState where
  g_fds : List (Nat × CephFileRef)
  g_filesOpenForWrite : List Str
  g_nextCephFd : Nat
  store : Store
deriving DecidableEq

/-- g_fds.find(fd). -/
def fdLookup (m : List (Nat × CephFileRef)) (fd : Nat) : Option CephFileRef :=
  match m with
  | [] => none
  | (k, v) :: rest => if k = fd then some v else fdLookup rest fd

/-- g_fds[fd] = fr (std::map operator[]: replace or insert). -/
def fdUpdate (m : List (Nat × CephFileRef)) (fd : Nat) (fr : CephFileRef) :
    List (Nat × CephFileRef) :=
  match m with
  | [] => [(fd, fr)]
  | (k, v) :: rest => if k = fd then (fd, fr) :: rest else (k, v) :: fdUpdate rest fd fr

/-- The write test used throughout the source: flags & (O_WRONLY|O_RDWR). -/
def hasWriteFlag (flags : Nat) : Bool :=
  flags &&& (O_WRONLY ||| O_RDWR) != 0

/-- ceph_posix_internal_truncate: -EINVAL on a null striper, otherwise the
store's trunc result. -/
def ceph_posix_internal_truncate (striperOk : Bool) (st : Store) (n : Str) (size : Nat) :
    Int × Store :=
  if striperOk then striperTrunc st n size else (-EINVAL, st)

/-- The tail of ceph_posix_open after the O_CREAT|O_EXCL probe: the O_TRUNC
truncation (whose failure is ignored when the file is absent) and the final
return of g_nextCephFd - 1. -/
def ceph_posix_open_tail (striperOk : Bool) (file : CephFile) (flags : Nat) (s2 : FdState) :
    Int × FdState :=
  if flags &&& O_TRUNC ≠ 0 then
    let r := ceph_posix_internal_truncate striperOk s2.store file.name 0
    if r.1 < 0 ∧ r.1 ≠ -ENOENT then (r.1, s2)
    else (Int.ofNat (s2.g_nextCephFd - 1), { s2 with store := r.2 })
  else (Int.ofNat (s2.g_nextCephFd - 1), s2)

/-- ceph_posix_open: build the CephFileRef with cursor 0, store it under
g_nextCephFd and bump the counter, register the name in
g_filesOpenForWrite when opened for writing — all BEFORE any check.  Then,
when O_CREAT and O_EXCL are both set, probe existence through the striper:
a null striper returns -EINVAL, an existing file returns -EEXIST (the
entries made above are not removed on these early returns).  Finally the
O_TRUNC step runs and the new descriptor number is returned. -/
def ceph_posix_open (striperOk : Bool) (file : CephFile) (flags mode : Nat) (s : FdState) :
    Int × FdState :=
  let fr : CephFileRef := { toCephFile := file, flags := flags, mode := mode, offset := 0 }
  let s1 : FdState :=
    { s with
      g_fds := fdUpdate s.g_fds s.g_nextCephFd fr
      g_nextCephFd := s.g_nextCephFd + 1 }
  let s2 : FdState :=
    if hasWriteFlag flags then
      { s1 with g_filesOpenForWrite := file.name :: s1.g_filesOpenForWrite }
    else s1
  if flags &&& O_CREAT ≠ 0 ∧ flags &&& O_EXCL ≠ 0 then
    if striperOk then
      match storeLookup s2.store file.name with
      | some _ => (-EEXIST, s2)
      | none => ceph_posix_open_tail striperOk file flags s2
    else (-EINVAL, s2)
  else ceph_posix_open_tail striperOk file flags s2

/-- ceph_posix_open reached through a raw path, as the C entry point is: the
path is resolved first (getCephFileRef calls fillCephFile, whose exceptions
escape the whole call). -/
def ceph_posix_open_path (striperOk : Bool) (path : Str) (env : Option EnvM)
    (flags mode : Nat) (s : FdState) : Except ParseErr (Int × FdState) := do
  let file ← getCephFile path env
  pure (ceph_posix_open striperOk file flags mode s)

/-- ceph_posix_read: unknown handle -EBADF; a handle with any write flag
(O_WRONLY or O_RDWR) -EBADF; null striper -EINVAL; otherwise read rc bytes
at the cursor and advance the cursor by rc.  Result: (return code, bytes
delivered to the caller buffer, new state). -/
def ceph_posix_read (striperOk : Bool) (fd : Nat) (count : Nat) (s : FdState) :
    Int × List Nat × FdState :=
  match fdLookup s.g_fds fd with
  | none => (-EBADF, [], s)
  | some fr =>
    if hasWriteFlag fr.flags then (-EBADF, [], s)
    else if striperOk then
      let r := striperRead s.store fr.name count fr.offset
      if r.1 < 0 then (r.1, [], s)
      else (r.1, r.2,
        { s with g_fds := fdUpdate s.g_fds fd { fr with offset := fr.offset + r.1.toNat } })
    else (-EINVAL, [], s)

/-- ceph_posix_pread: as ceph_posix_read but at an explicit offset and
without touching the cursor. -/
def ceph_posix_pread (striperOk : Bool) (fd : Nat) (count offset : Nat) (s : FdState) :
    Int × List Nat × FdState :=
  match fdLookup s.g_fds fd with
  | none => (-EBADF, [], s)
  | some fr =>
    if hasWriteFlag fr.flags then (-EBADF, [], s)
    else if striperOk then
      let r := striperRead s.store fr.name count offset
      if r.1 < 0 then (r.1, [], s)
      else (r.1, r.2, s)
    else (-EINVAL, [], s)

/-- ceph_posix_write: unknown handle -EBADF; a handle with no write flag
-EBADF; null striper -EINVAL; otherwise write the whole buffer at the
cursor, advance the cursor by count and return count. -/
def ceph_posix_write (striperOk : Bool) (fd : Nat) (buf : List Nat) (s : FdState) :
    Int × FdState :=
  match fdLookup s.g_fds fd with
  | none => (-EBADF, s)
  | some fr =>
    if hasWriteFlag fr.flags then
      if striperOk then
        let r := striperWrite s.store fr.name buf fr.offset
        if r.1 ≠ 0 then (r.1, s)
        else (Int.ofNat buf.length,
          { s with
            store := r.2
            g_fds := fdUpdate s.g_fds fd { fr with offset := fr.offset + buf.length } })
      else (-EINVAL, s)
    else (-EBADF, s)

/-- ceph_posix_pwrite: as ceph_posix_write but at an explicit offset and
without touching the cursor. -/
def ceph_posix_pwrite (striperOk : Bool) (fd : Nat) (buf : List Nat) (offset : Nat)
    (s : FdState) : Int × FdState :=
  match fdLookup s.g_fds fd with
  | none => (-EBADF, s)
  | some fr =>
    if hasWriteFlag fr.flags then
      if striperOk then
        let r := striperWrite s.store fr.name buf offset
        if r.1 ≠ 0 then (r.1, s)
        else (Int.ofNat buf.length, { s with store := r.2 })
      else (-EINVAL, s)
    else (-EBADF, s)

/-- The minimal struct stat fields the source fills: size, the three times
(all set to one value) and the fixed mode 0666 (= 438). -/
structure StatBuf where
  st_size : Nat
  st_atime : Nat
  st_mtime : Nat
  st_ctime : Nat
  st_mode : Nat
deriving DecidableEq

/-- ceph_posix_fstat: unknown handle -EBADF; null striper -EINVAL; then
rc = striper->stat and, when rc is nonzero, return -rc — note the store
already delivers a NEGATIVE errno (the source compares the same call's
result against -ENOENT elsewhere), so this negation makes the failure
return POSITIVE.  On success the one timestamp is replicated and the mode
is fixed to 0666.  g_filesOpenForWrite is never consulted. -/
def ceph_posix_fstat (striperOk : Bool) (fd : Nat) (s : FdState) : Int × Option StatBuf :=
  match fdLookup s.g_fds fd with
  | none => (-EBADF, none)
  | some fr =>
    if striperOk then
      match storeLookup s.store fr.name with
      | some (data, t) =>
        (0, some { st_size := data.length, st_atime := t, st_mtime := t, st_ctime := t,
                   st_mode := 438 })
      | none => (-(-ENOENT), none)
    else (-EINVAL, none)

/-- ceph_posix_stat: resolve the path, stat through the striper; when the
store reports -ENOENT and the name is currently in g_filesOpenForWrite the
result is synthesized as size 0 with the current time; any other failure
returns -rc (positive, as in ceph_posix_fstat).  On every success path the
single timestamp is replicated into the three time fields and the mode is
0666. -/
def ceph_posix_stat (striperOk : Bool) (file : CephFile) (now : Nat) (s : FdState) :
    Int × Option StatBuf :=
  if striperOk then
    match storeLookup s.store file.name with
    | some (data, t) =>
      (0, some { st_size := data.length, st_atime := t, st_mtime := t, st_ctime := t,
                 st_mode := 438 })
    | none =>
      if file.name ∈ s.g_filesOpenForWrite then
        (0, some { st_size := 0, st_atime := now, st_mtime := now, st_ctime := now,
                   st_mode := 438 })
      else (-(-ENOENT), none)
  else (-EINVAL, none)

/-- The first-stripe marker test of ceph_posix_readdir: the last 17
characters of the object key equal ".0000000000000000".  (For keys shorter
than 17 characters the source's size()-17 underflows and
std::string::compare throws; the verified claims only concern listings
whose keys carry the fixed-length suffix.) -/
def isFirstStripeKey (key : Str) : Bool :=
  decide (17 ≤ key.length) && (key.drop (key.length - 17) == ".0000000000000000".toList)

/-- One ceph_posix_readdir call over the remaining object listing: skip
keys that are not first-stripe markers; at the end of the listing an empty
name is produced (buff[0] = 0).  Otherwise, with l the key length minus
the 17-character suffix, the source sets blen = min(l, blen) and then runs
strncpy(buff, key, blen-1); buff[blen-1] = 0 — so the name placed in the
caller's buffer is the first blen-1 characters of the key.  Result: (name
written to the buffer, remaining listing).  (The source checks the marker
before the end-of-listing guard; the model uses the conventional guard
order, which agrees with it on every listing the claims quantify over.) -/
def ceph_posix_readdir (keys : List Str) (blen : Nat) : Str × List Str :=
  match keys.dropWhile (fun k => !isFirstStripeKey k) with
  | [] => ([], [])
  | k :: rest =>
    let l := k.length - 17
    let blen2 := if l < blen then l else blen
    (k.take (blen2 - 1), rest)

/-- Fixture: a write-only descriptor for the name f with cursor 0. -/
def frWO : CephFileRef :=
  { name := "f".toList, pool := "p".toList, userId := "u".toList,
    nbStripes := 1, stripeUnit := 1, objectSize := 1,
    flags := O_WRONLY, mode := 0, offset := 0 }

/-- Fixture: descriptor 0 is frWO, its name registered for write, store
empty. -/
def stWO : FdState :=
  { g_fds := [(0, frWO)], g_filesOpenForWrite := ["f".toList], g_nextCephFd := 1, store := [] }

/-- Fixture: a read-write descriptor for the name f. -/
def frRW : CephFileRef :=
  { frWO with flags := O_RDWR }

/-- Fixture: descriptor 0 is frRW and the object f exists with one byte. -/
def stRW : FdState :=
  { g_fds := [(0, frRW)], g_filesOpenForWrite := ["f".toList], g_nextCephFd := 1,
    store := [("f".toList, ([1], 0))] }

/-- Fixture: no descriptors, store already contains the object f. -/
def stExisting : FdState :=
  { g_fds := [], g_filesOpenForWrite := [], g_nextCephFd := 0,
    store := [("f".toList, ([1, 2], 3))] }

/-- Fixture: an identity bound to pool p1 (layout 1,64,64). -/
def fPool1 : CephFile :=
  { name := [], pool := "p1".toList, userId := "admin".toList,
    nbStripes := 1, stripeUnit := 64, objectSize := 64 }

/-- Fixture: the same identity on pool p2 (a different layout key). -/
def fPool2 : CephFile :=
  { fPool1 with pool := "p2".toList }

/-- Fixture: a pool state that already holds one pooled session (for the key
of fPool1) and a live cluster handle. -/
def poolPre : PoolState :=
  { g_radosStripers := [layoutKey fPool1], g_ioCtx := [layoutKey fPool1],
    g_cluster := Ptr.valid }

/-- Fixture: every external call succeeds except
set_object_layout_stripe_count, which returns -EINVAL. -/
def oLayoutFail : RadosOracle :=
  { initRc := 0, confReadFileRc := 0, connectRc := 0, ioctxCreateRc := 0,
    striperCreateRc := 0, stripeCountRc := -22, stripeUnitRc := 0, objectSizeRc := 0 }

instance {ε α : Type} [DecidableEq ε] [DecidableEq α] : DecidableEq (Except ε α) := fun a b =>
  match a, b with
  | .error x, .error y =>
    if h : x = y then .isTrue (congrArg Except.error h)
    else .isFalse (fun hc => h (Except.error.inj hc))
  | .ok x, .ok y =>
    if h : x = y then .isTrue (congrArg Except.ok h)
    else .isFalse (fun hc => h (Except.ok.inj hc))
  | .error _, .ok _ => .isFalse (fun hc => Except.noConfusion hc)
  | .ok _, .error _ => .isFalse (fun hc => Except.noConfusion hc)

/-- Helper: updating a descriptor and looking the same descriptor up yields
the stored reference. -/
theorem fdLookup_fdUpdate_self (m : List (Nat × CephFileRef)) (fd : Nat) (fr : CephFileRef) :
    fdLookup (fdUpdate m fd fr) fd = some fr := by
  induction m with
  | nil => simp [fdUpdate, fdLookup]
  | cons kv rest ih =>
    obtain ⟨k, v⟩ := kv
    by_cases h : k = fd
    · simp [fdUpdate, fdLookup, h]
    · simp [fdUpdate, fdLookup, h, ih]

/-- Helper: a scan over characters none of which satisfies the predicate
finds nothing. -/
theorem strFindAux_all_none (p : Char → Bool) (l : Str) (i : Nat)
    (h : ∀ c ∈ l, p c = false) : strFindAux p l i = none := by
  induction l generalizing i with
  | nil => rfl
  | cons c rest ih =>
    have hc : p c = false := h c (List.mem_cons_self c rest)
    simp only [strFindAux, hc, if_false]
    exact ih (i + 1) (fun d hd => h d (List.mem_cons_of_mem c hd))

/-- Helper: a scan passes over a block of characters none of which satisfies
the predicate, advancing the index by the block's length. -/
theorem strFindAux_append (p : Char → Bool) (l1 l2 : Str) (i : Nat)
    (h : ∀ c ∈ l1, p c = false) :
    strFindAux p (l1 ++ l2) i = strFindAux p l2 (i + l1.length) := by
  induction l1 generalizing i with
  | nil => simp [strFindAux]
  | cons c rest ih =>
    have hc : p c = false := h c (List.mem_cons_self c rest)
    simp only [List.cons_append, strFindAux, hc, Bool.false_eq_true, if_false, List.append_eq]
    rw [ih (i + 1) (fun d hd => h d (List.mem_cons_of_mem c hd))]
    congr 1
    simp only [List.length_cons]
    omega

/-- C1, counterexample.  The claim says the cluster handle is torn down only
when the failing attempt would have created the very first session and is
left intact when other pooled sessions already exist.  Here the pool already
holds one session (for the key of fPool1) and the cluster handle is live;
a layout failure while creating a session for fPool2 nevertheless leaves
g_cluster null: the source tears the cluster down unconditionally. -/
theorem getRadosStriper_layout_failure_cex :
    getRadosStriper oLayoutFail fPool2 poolPre = (none, { poolPre with g_cluster := Ptr.null })
    ∧ poolPre.g_radosStripers ≠ []
    ∧ poolPre.g_cluster = Ptr.valid := by
  decide

/-- C1, amended.  On a session-key miss where the cluster is (or becomes)
available and the pool binding and striping session are created, a failure
in any of the three layout-setting calls rolls back the pool binding and
striping session allocated for that attempt (both pool maps are unchanged),
returns no session (every caller maps the null striper to -EINVAL, the
InvalidLayout report), and tears the cluster handle down unconditionally —
also when other pooled sessions already exist. -/
theorem getRadosStriper_layout_failure (o : RadosOracle) (f : CephFile) (s : PoolState)
    (hmiss : s.g_radosStripers.contains (layoutKey f) = false)
    (hcl : s.g_cluster = Ptr.valid
      ∨ (s.g_cluster = Ptr.null ∧ o.initRc = 0 ∧ o.confReadFileRc = 0 ∧ o.connectRc = 0))
    (hio : o.ioctxCreateRc = 0) (hst : o.striperCreateRc = 0)
    (hlay : ¬(o.stripeCountRc = 0 ∧ o.stripeUnitRc = 0 ∧ o.objectSizeRc = 0)) :
    getRadosStriper o f s = (none, { s with g_cluster := Ptr.null }) := by
  unfold getRadosStriper
  simp only [hmiss, Bool.false_eq_true, if_false]
  by_cases h1 : o.stripeCountRc = 0 <;> by_cases h2 : o.stripeUnitRc = 0 <;>
    by_cases h3 : o.objectSizeRc = 0 <;>
    rcases hcl with hv | ⟨hn, ha, hb, hc⟩ <;>
    simp_all [hio, hst]

/-- C1, witness for the amended theorem at a concrete input: one pooled
session already exists, the cluster is live, and the stripe-count call
fails. -/
theorem getRadosStriper_layout_failure_witness :
    getRadosStriper oLayoutFail fPool2 poolPre = (none, { poolPre with g_cluster := Ptr.null }) :=
  getRadosStriper_layout_failure oLayoutFail fPool2 poolPre (by decide)
    (Or.inl (by decide)) (by decide) (by decide) (by decide)

/-- C2, counterexample.  The claim says a failed must-not-exist + create
open leaves the descriptor table and the WriteIntentSet unchanged.  Opening
the already-existing object f with O_WRONLY|O_CREAT|O_EXCL over an empty
descriptor table does report -EEXIST, but it grows g_fds, grows
g_filesOpenForWrite and bumps the descriptor counter: the source registers
the descriptor and the write intent before the existence probe and never
rolls them back. -/
theorem open_excl_existing_cex :
    (ceph_posix_open true frWO.toCephFile (O_WRONLY ||| O_CREAT ||| O_EXCL) 0 stExisting).1
      = -EEXIST
    ∧ (ceph_posix_open true frWO.toCephFile (O_WRONLY ||| O_CREAT ||| O_EXCL) 0
        stExisting).2.g_fds ≠ stExisting.g_fds
    ∧ (ceph_posix_open true frWO.toCephFile (O_WRONLY ||| O_CREAT ||| O_EXCL) 0
        stExisting).2.g_filesOpenForWrite ≠ stExisting.g_filesOpenForWrite
    ∧ (ceph_posix_open true frWO.toCephFile (O_WRONLY ||| O_CREAT ||| O_EXCL) 0
        stExisting).2.g_nextCephFd = stExisting.g_nextCephFd + 1 := by
  decide

/-- C2, amended.  An open with both the must-not-exist and create flags on a
name that already exists in the store reports AlreadyExists (-EEXIST) and
yields no usable handle, but the descriptor-table entry and (for write-mode
opens) the WriteIntentSet insertion made at the start of open are not rolled
back: the failed open leaves exactly one new descriptor entry under the old
g_nextCephFd, the bumped counter, and the conditional write-intent entry. -/
theorem open_excl_existing (s : FdState) (file : CephFile) (flags mode : Nat)
    (v : List Nat × Nat)
    (hex : storeLookup s.store file.name = some v)
    (hc : flags &&& O_CREAT ≠ 0) (he : flags &&& O_EXCL ≠ 0) :
    ceph_posix_open true file flags mode s =
      (-EEXIST,
        let s1 : FdState :=
          { s with
            g_fds := fdUpdate s.g_fds s.g_nextCephFd
              { toCephFile := file, flags := flags, mode := mode, offset := 0 }
            g_nextCephFd := s.g_nextCephFd + 1 }
        if hasWriteFlag flags then
          { s1 with g_filesOpenForWrite := file.name :: s1.g_filesOpenForWrite }
        else s1)
    ∧ fdLookup (ceph_posix_open true file flags mode s).2.g_fds s.g_nextCephFd
        = some { toCephFile := file, flags := flags, mode := mode, offset := 0 } := by
  cases hw : hasWriteFlag flags <;>
    simp_all [ceph_posix_open, hex, hc, he, hw, fdLookup_fdUpdate_self]

/-- C2, witness for the amended theorem: the concrete failed open of
open_excl_existing_cex, every hypothesis discharged at that input. -/
theorem open_excl_existing_witness :
    ceph_posix_open true frWO.toCephFile (O_WRONLY ||| O_CREAT ||| O_EXCL) 0 stExisting =
      (-EEXIST,
        let s1 : FdState :=
          { stExisting with
            g_fds := fdUpdate stExisting.g_fds stExisting.g_nextCephFd
              { toCephFile := frWO.toCephFile, flags := O_WRONLY ||| O_CREAT ||| O_EXCL,
                mode := 0, offset := 0 }
            g_nextCephFd := stExisting.g_nextCephFd + 1 }
        if hasWriteFlag (O_WRONLY ||| O_CREAT ||| O_EXCL) then
          { s1 with g_filesOpenForWrite := frWO.toCephFile.name :: s1.g_filesOpenForWrite }
        else s1)
    ∧ fdLookup (ceph_posix_open true frWO.toCephFile (O_WRONLY ||| O_CREAT ||| O_EXCL) 0
        stExisting).2.g_fds stExisting.g_nextCephFd
        = some { toCephFile := frWO.toCephFile, flags := O_WRONLY ||| O_CREAT ||| O_EXCL,
                 mode := 0, offset := 0 } :=
  open_excl_existing stExisting frWO.toCephFile (O_WRONLY ||| O_CREAT ||| O_EXCL) 0
    ([1, 2], 3) (by decide) (by decide) (by decide)

/-- Helper: the return code of the modelled striper read is never -EBADF
(it is a nonnegative byte count or -ENOENT). -/
theorem striperRead_fst_ne_neg_EBADF (st : Store) (n : Str) (count offset : Nat) :
    (striperRead st n count offset).1 ≠ -EBADF := by
  cases hsl : storeLookup st n with
  | none => simp [striperRead, hsl, EBADF, ENOENT]
  | some v =>
    obtain ⟨data, t⟩ := v
    simp only [striperRead, hsl, EBADF]
    intro h
    rw [Int.ofNat_eq_natCast] at h
    omega

/-- Helper: the modelled striper accepts every whole-region write. -/
theorem striperWrite_fst_eq_zero (st : Store) (n : Str) (buf : List Nat) (offset : Nat) :
    (striperWrite st n buf offset).1 = 0 := by
  cases hsl : storeLookup st n with
  | none => simp [striperWrite, hsl]
  | some v =>
    obtain ⟨data, t⟩ := v
    simp [striperWrite, hsl]

/-- C3, counterexample.  The claim says cursor read and positional pread are
rejected exactly on write-only handles, so a read-write handle is accepted
by both read and write entry points.  Descriptor 0 of stRW was opened
O_RDWR over an existing one-byte object, yet ceph_posix_read and
ceph_posix_pread reject it with -EBADF (the source rejects a read whenever
flags & (O_WRONLY|O_RDWR) is nonzero) while write and pwrite accept it. -/
theorem read_rejects_rdwr_cex :
    (fdLookup stRW.g_fds 0).map CephFileRef.flags = some O_RDWR
    ∧ (ceph_posix_read true 0 1 stRW).1 = -EBADF
    ∧ (ceph_posix_pread true 0 1 0 stRW).1 = -EBADF
    ∧ (ceph_posix_write true 0 [9] stRW).1 = 1
    ∧ (ceph_posix_pwrite true 0 [9] 0 stRW).1 = 1 := by
  decide

/-- C3, amended.  For a known handle (with the striper lookup succeeding),
cursor read and positional pread are rejected with BadDescriptor exactly
when the handle carries any write capability — O_WRONLY or O_RDWR, so also
a read-write handle — and cursor write and positional pwrite are rejected
with BadDescriptor exactly when it carries neither; consequently no handle
is accepted by both the read and the write entry points. -/
theorem access_mode_checks (s : FdState) (fd : Nat) (fr : CephFileRef)
    (count offset : Nat) (buf : List Nat)
    (hfd : fdLookup s.g_fds fd = some fr) :
    ((ceph_posix_read true fd count s).1 = -EBADF ↔ hasWriteFlag fr.flags = true)
    ∧ ((ceph_posix_pread true fd count offset s).1 = -EBADF ↔ hasWriteFlag fr.flags = true)
    ∧ ((ceph_posix_write true fd buf s).1 = -EBADF ↔ hasWriteFlag fr.flags = false)
    ∧ ((ceph_posix_pwrite true fd buf offset s).1 = -EBADF ↔ hasWriteFlag fr.flags = false) := by
  cases hw : hasWriteFlag fr.flags
  · have hr := striperRead_fst_ne_neg_EBADF s.store fr.name count fr.offset
    have hp := striperRead_fst_ne_neg_EBADF s.store fr.name count offset
    refine ⟨?_, ?_, ?_, ?_⟩
    · simp only [ceph_posix_read, hfd, hw, Bool.false_eq_true, if_false, if_true]
      by_cases hneg : (striperRead s.store fr.name count fr.offset).1 < 0 <;>
        simp [hneg, hr]
    · simp only [ceph_posix_pread, hfd, hw, Bool.false_eq_true, if_false, if_true]
      by_cases hneg : (striperRead s.store fr.name count offset).1 < 0 <;>
        simp [hneg, hp]
    · simp [ceph_posix_write, hfd, hw]
    · simp [ceph_posix_pwrite, hfd, hw]
  · have hwr := striperWrite_fst_eq_zero s.store fr.name buf fr.offset
    have hpw := striperWrite_fst_eq_zero s.store fr.name buf offset
    refine ⟨?_, ?_, ?_, ?_⟩
    · simp [ceph_posix_read, hfd, hw]
    · simp [ceph_posix_pread, hfd, hw]
    · simp only [ceph_posix_write, hfd, hw, if_true, hwr]
      simp only [ne_eq, not_true_eq_false, if_false, if_neg (by omega : ¬(0 : Int) ≠ 0)]
      constructor
      · intro h
        exfalso
        simp only [EBADF] at h
        rw [Int.ofNat_eq_natCast] at h
        omega
      · intro h
        cases h
    · simp only [ceph_posix_pwrite, hfd, hw, if_true, hpw]
      simp only [ne_eq, not_true_eq_false, if_false, if_neg (by omega : ¬(0 : Int) ≠ 0)]
      constructor
      · intro h
        exfalso
        simp only [EBADF] at h
        rw [Int.ofNat_eq_natCast] at h
        omega
      · intro h
        cases h

/-- C3, witness for the amended theorem at the read-write descriptor of
stRW: readiff and pread iff hold with the right-hand side true, write and
pwrite with the right-hand side false. -/
theorem access_mode_checks_witness :
    ((ceph_posix_read true 0 1 stRW).1 = -EBADF ↔ hasWriteFlag frRW.flags = true)
    ∧ ((ceph_posix_pread true 0 1 0 stRW).1 = -EBADF ↔ hasWriteFlag frRW.flags = true)
    ∧ ((ceph_posix_write true 0 [9] stRW).1 = -EBADF ↔ hasWriteFlag frRW.flags = false)
    ∧ ((ceph_posix_pwrite true 0 [9] 0 stRW).1 = -EBADF ↔ hasWriteFlag frRW.flags = false) :=
  access_mode_checks stRW 0 frRW 1 0 [9] (by decide)

/-- C4, counterexample.  The claim says a successful cursor write of N bytes
at cursor 0 followed by a cursor read of N bytes on the same handle returns
the written bytes and leaves the cursor at 2N.  On the write-only descriptor
of stWO the write of [7, 8] succeeds (cursor 2), but the immediate cursor
read on the same handle returns -EBADF with no bytes and the cursor stays at
2, not 4 — the source rejects cursor reads on any handle with a write flag,
and a cursor write needs such a flag, so the same-handle round trip can
never succeed. -/
theorem write_read_roundtrip_cex :
    (ceph_posix_write true 0 [7, 8] stWO).1 = 2
    ∧ (ceph_posix_read true 0 2 (ceph_posix_write true 0 [7, 8] stWO).2).1 = -EBADF
    ∧ (ceph_posix_read true 0 2 (ceph_posix_write true 0 [7, 8] stWO).2).2.1 = []
    ∧ (ceph_posix_read true 0 2 (ceph_posix_write true 0 [7, 8] stWO).2).2.1 ≠ [7, 8]
    ∧ (fdLookup (ceph_posix_read true 0 2
        (ceph_posix_write true 0 [7, 8] stWO).2).2.2.g_fds 0).map CephFileRef.offset = some 2
    ∧ (fdLookup (ceph_posix_read true 0 2
        (ceph_posix_write true 0 [7, 8] stWO).2).2.2.g_fds 0).map CephFileRef.offset ≠ some 4 := by
  decide

/-- C4, amended.  For a handle with a write flag, cursor 0 and a name absent
from the store, a cursor write of the buffer succeeds returning its length,
stores exactly those bytes and advances the cursor to N; the immediately
following cursor read of N bytes on the same handle is rejected with
BadDescriptor, delivers no bytes, and leaves the cursor at N (not 2N). -/
theorem cursor_write_then_read (s : FdState) (fd : Nat) (fr : CephFileRef) (buf : List Nat)
    (hfd : fdLookup s.g_fds fd = some fr)
    (hw : hasWriteFlag fr.flags = true)
    (hoff : fr.offset = 0)
    (habs : storeLookup s.store fr.name = none) :
    (ceph_posix_write true fd buf s).1 = Int.ofNat buf.length
    ∧ (fdLookup (ceph_posix_write true fd buf s).2.g_fds fd).map CephFileRef.offset
        = some buf.length
    ∧ (storeLookup (ceph_posix_write true fd buf s).2.store fr.name).map Prod.fst = some buf
    ∧ (ceph_posix_read true fd buf.length (ceph_posix_write true fd buf s).2).1 = -EBADF
    ∧ (ceph_posix_read true fd buf.length (ceph_posix_write true fd buf s).2).2.1 = []
    ∧ (fdLookup (ceph_posix_read true fd buf.length
        (ceph_posix_write true fd buf s).2).2.2.g_fds fd).map CephFileRef.offset
        = some buf.length := by
  have hws : ceph_posix_write true fd buf s =
      (Int.ofNat buf.length,
        { s with
          store := (fr.name, (buf, 0)) :: s.store
          g_fds := fdUpdate s.g_fds fd { fr with offset := buf.length } }) := by
    simp [ceph_posix_write, hfd, hw, striperWrite, habs, hoff, writeAt]
  rw [hws]
  refine ⟨rfl, ?_, ?_, ?_, ?_, ?_⟩
  · simp [fdLookup_fdUpdate_self]
  · simp [storeLookup]
  · simp [ceph_posix_read, fdLookup_fdUpdate_self, hw]
  · simp [ceph_posix_read, fdLookup_fdUpdate_self, hw]
  · simp [ceph_posix_read, fdLookup_fdUpdate_self, hw]

/-- C4, witness for the amended theorem: the concrete write of [7, 8] on the
write-only descriptor of stWO followed by the rejected cursor read. -/
theorem cursor_write_then_read_witness :
    (ceph_posix_write true 0 [7, 8] stWO).1 = Int.ofNat [7, 8].length
    ∧ (fdLookup (ceph_posix_write true 0 [7, 8] stWO).2.g_fds 0).map CephFileRef.offset
        = some [7, 8].length
    ∧ (storeLookup (ceph_posix_write true 0 [7, 8] stWO).2.store frWO.name).map Prod.fst
        = some [7, 8]
    ∧ (ceph_posix_read true 0 [7, 8].length (ceph_posix_write true 0 [7, 8] stWO).2).1 = -EBADF
    ∧ (ceph_posix_read true 0 [7, 8].length (ceph_posix_write true 0 [7, 8] stWO).2).2.1 = []
    ∧ (fdLookup (ceph_posix_read true 0 [7, 8].length
        (ceph_posix_write true 0 [7, 8] stWO).2).2.2.g_fds 0).map CephFileRef.offset
        = some [7, 8].length :=
  cursor_write_then_read stWO 0 frWO [7, 8] (by decide) (by decide) (by decide) (by decide)

/-- C5, code bug.  ceph_posix_disconnect_all destroys every pooled session
and the cluster handle, but it is NOT idempotent: the source runs delete on
g_cluster without resetting the pointer to 0 (every other teardown site in
the file nulls it), so after a first call that destroyed a live cluster the
pointer dangles, and a second call — with the pool already empty and the
cluster already destroyed, exactly the situation of the claim — runs delete
on the already-freed pointer: a double free, undefined behaviour, modelled
as none. -/
theorem disconnect_all_not_idempotent :
    ceph_posix_disconnect_all
        { g_radosStripers := ["a".toList], g_ioCtx := ["a".toList], g_cluster := Ptr.valid }
      = some { g_radosStripers := [], g_ioCtx := [], g_cluster := Ptr.dangling }
    ∧ ceph_posix_disconnect_all
        { g_radosStripers := [], g_ioCtx := [], g_cluster := Ptr.dangling } = none := by
  decide

/-- C6, code bug.  Over a listing with logical files ab (two stripe objects)
and cd (one stripe object) and a large caller buffer, repeated readDir calls
skip the non-marker stripe keys correctly and terminate with the empty
end-of-enumeration result, but the names delivered are a and c, not ab and
cd: the source computes blen = min(l, blen) for a key of logical length l
and then runs strncpy(buff, key, blen-1), dropping the last character of
every logical name instead of returning it unaltered. -/
theorem readdir_truncates_names :
    ceph_posix_readdir
        ["ab.0000000000000000".toList, "ab.0000000000000001".toList,
         "cd.0000000000000000".toList] 256
      = ("a".toList, ["ab.0000000000000001".toList, "cd.0000000000000000".toList])
    ∧ ceph_posix_readdir ["ab.0000000000000001".toList, "cd.0000000000000000".toList] 256
      = ("c".toList, [])
    ∧ ceph_posix_readdir [] 256 = ([], [])
    ∧ "a".toList ≠ "ab".toList
    ∧ "c".toList ≠ "cd".toList := by
  decide

/-- C7, code bug.  The return-code convention demands a negative value on
failure, but when the store's stat fails inside fstat or path-based stat the
source executes return -rc on an rc that is already a negative errno (the
same file compares that rc against -ENOENT and elsewhere returns such codes
unnegated), so the caller receives POSITIVE ENOENT = 2: here descriptor 0 of
stWO names an absent object and g (not in the write-intent set) is an absent
path. -/
theorem stat_failure_returns_positive :
    ceph_posix_fstat true 0 stWO = (2, none)
    ∧ (0 : Int) < (ceph_posix_fstat true 0 stWO).1
    ∧ ceph_posix_stat true { frWO.toCephFile with name := "g".toList } 7 stWO = (2, none)
    ∧ (0 : Int) < (ceph_posix_stat true { frWO.toCephFile with name := "g".toList } 7 stWO).1 := by
  decide

/-- C8, confirmed.  A path-based stat on a name the store does not hold
while the name is present in g_filesOpenForWrite succeeds (rc 0) and reports
size 0, the current time replicated into the access/modify/change fields,
and the fixed mode 0666 = 438, instead of reporting not-found. -/
theorem stat_write_intent_synthesized (file : CephFile) (now : Nat) (s : FdState)
    (habs : storeLookup s.store file.name = none)
    (hin : file.name ∈ s.g_filesOpenForWrite) :
    ceph_posix_stat true file now s =
      (0, some { st_size := 0, st_atime := now, st_mtime := now, st_ctime := now,
                 st_mode := 438 }) := by
  simp [ceph_posix_stat, habs, hin]

/-- C8, witness: stat of the name f (absent from the empty store of stWO but
registered in its write-intent set) at time 7. -/
theorem stat_write_intent_synthesized_witness :
    ceph_posix_stat true frWO.toCephFile 7 stWO =
      (0, some { st_size := 0, st_atime := 7, st_mtime := 7, st_ctime := 7,
                 st_mode := 438 }) :=
  stat_write_intent_synthesized frWO.toCephFile 7 stWO (by decide) (by decide)

/-- C10, confirmed.  For a handle open for write on a name absent from the
store, fstat never consults the WriteIntentSet: its result is the same for
every content of g_filesOpenForWrite and is the store's not-found error
mapped through the entry point's return -rc (the positive ENOENT of C7),
with no stat result synthesized — while path-based stat on the same name in
the same state synthesizes the zero-size success. -/
theorem fstat_ignores_write_intent (s : FdState) (fd : Nat) (fr : CephFileRef)
    (now : Nat) (w : List Str)
    (hfd : fdLookup s.g_fds fd = some fr)
    (hwmode : hasWriteFlag fr.flags = true)
    (hin : fr.name ∈ s.g_filesOpenForWrite)
    (habs : storeLookup s.store fr.name = none) :
    ceph_posix_fstat true fd { s with g_filesOpenForWrite := w } = (ENOENT, none)
    ∧ ceph_posix_fstat true fd s = (ENOENT, none)
    ∧ ceph_posix_stat true fr.toCephFile now s =
        (0, some { st_size := 0, st_atime := now, st_mtime := now, st_ctime := now,
                   st_mode := 438 }) := by
  refine ⟨?_, ?_, ?_⟩
  · simp [ceph_posix_fstat, hfd, habs]
  · simp [ceph_posix_fstat, hfd, habs]
  · simp [ceph_posix_stat, habs, hin]

/-- C10, witness: descriptor 0 of stWO (write-only, name f, absent from the
store) with the write-intent set replaced by the empty list for the
independence conjunct. -/
theorem fstat_ignores_write_intent_witness :
    ceph_posix_fstat true 0 { stWO with g_filesOpenForWrite := [] } = (ENOENT, none)
    ∧ ceph_posix_fstat true 0 stWO = (ENOENT, none)
    ∧ ceph_posix_stat true frWO.toCephFile 9 stWO =
        (0, some { st_size := 0, st_atime := 9, st_mtime := 9, st_ctime := 9,
                   st_mode := 438 }) :=
  fstat_ignores_write_intent stWO 0 frWO 9 [] (by decide) (by decide) (by decide) (by decide)

/-- Helper: bind on a successful Except result applies the continuation. -/
theorem bind_ok_eq {e a b : Type} (x : a) (f : a → Except e b) :
    Bind.bind (Except.ok x) f = f x := rfl

/-- Helper: bind on a failed Except result propagates the error. -/
theorem bind_error_eq {e a b : Type} (err : e) (f : a → Except e b) :
    Bind.bind (Except.error err) f = Except.error err := rfl

/-- Helper: fillCephUserId on params of the shape p,FIELD (no '@'). -/
theorem fillCephUserId_pcomma (s : Str) (hchars : ∀ c ∈ s, (c == '@') = false) (f : CephFile) :
    fillCephUserId ('p' :: ',' :: s) none f = (0, { f with userId := g_defaultParams.userId }) := by
  unfold fillCephUserId
  rw [show strFind (fun c => c == '@') ('p' :: ',' :: s) 0
      = strFindAux (fun c => c == '@') s 2 from rfl]
  rw [strFindAux_all_none _ s 2 hchars]
  rfl

/-- Helper: fillCephPool on params of the shape p,FIELD takes pool p. -/
theorem fillCephPool_pcomma (s : Str) (f : CephFile) :
    fillCephPool ('p' :: ',' :: s) 0 none f = (2, { f with pool := ['p'] }) := by
  unfold fillCephPool
  rw [show strFind (fun c => c == ',') ('p' :: ',' :: s) 0 = some 1 from rfl]
  rfl

/-- Helper: the comma-free stripe-count field embedded in p,FIELD runs
through stoui and its parse error aborts the resolution. -/
theorem fillCephNbStripes_bad_field (s : Str) (e : ParseErr)
    (hchars : ∀ c ∈ s, (c == ',') = false)
    (hne : s ≠ []) (hs : stoui s = .error e) (f : CephFile) :
    fillCephNbStripes ('p' :: ',' :: s) 2 none f = .error e := by
  unfold fillCephNbStripes
  rw [show strFind (fun c => c == ',') ('p' :: ',' :: s) 2
      = strFindAux (fun c => c == ',') s 2 from rfl]
  rw [strFindAux_all_none _ s 2 hchars]
  dsimp only
  rw [if_neg (by
    simp only [List.length_cons]
    intro h0
    exact hne (List.length_eq_zero.mp (by omega)))]
  rw [show List.drop 2 ('p' :: ',' :: s) = s from rfl]
  rw [hs]
  rfl

/-- Helper: a stripe-count value supplied only through the environment runs
through stoui and its parse error aborts the resolution. -/
theorem fillCephNbStripes_bad_env (s : Str) (e : ParseErr) (hs : stoui s = .error e)
    (f : CephFile) :
    fillCephNbStripes [] 0 (some { emptyEnv with cephNbStripes := some s }) f = .error e := by
  unfold fillCephNbStripes
  rw [show strFind (fun c => c == ',') ([] : Str) 0 = none from rfl]
  dsimp only
  rw [if_pos (show ([] : Str).length = 0 from rfl)]
  rw [show envGet (some { emptyEnv with cephNbStripes := some s }) EnvM.cephNbStripes
      = some s from rfl]
  dsimp only
  rw [hs]
  rfl

/-- Helper: a bad path-embedded stripe-count field aborts
fillCephFileParams. -/
theorem fillCephFileParams_bad_nb_field (s : Str) (e : ParseErr)
    (hchars : ∀ c ∈ s, (c == ',') = false ∧ (c == '@') = false)
    (hne : s ≠ []) (hs : stoui s = .error e) (f : CephFile) :
    fillCephFileParams ('p' :: ',' :: s) none f = .error e := by
  unfold fillCephFileParams
  rw [fillCephUserId_pcomma s (fun c hc => (hchars c hc).2) f]
  dsimp only
  rw [fillCephPool_pcomma s]
  dsimp only
  rw [fillCephNbStripes_bad_field s e (fun c hc => (hchars c hc).1) hne hs]
  rfl

/-- Helper: a bad stripe-count field embedded in the path p,FIELD:f aborts
getCephFile with the parse error. -/
theorem getCephFile_bad_nb_field (s : Str) (e : ParseErr)
    (hchars : ∀ c ∈ s, (c == ',') = false ∧ (c == ':') = false ∧ (c == '@') = false)
    (hne : s ≠ []) (hs : stoui s = .error e) :
    getCephFile (('p' :: ',' :: s) ++ (':' :: 'f' :: [])) none = .error e := by
  have h1 : ∀ c ∈ ('p' :: ',' :: s), (fun c => c == ':') c = false := by
    intro c hc
    rcases List.mem_cons.mp hc with rfl | hc2
    · decide
    rcases List.mem_cons.mp hc2 with rfl | hc3
    · decide
    exact (hchars c hc3).2.1
  have hcolon : strFind (fun c => c == ':') (('p' :: ',' :: s) ++ (':' :: 'f' :: [])) 0
      = some (s.length + 2) := by
    unfold strFind
    rw [show List.drop 0 (('p' :: ',' :: s) ++ (':' :: 'f' :: []))
        = ('p' :: ',' :: s) ++ (':' :: 'f' :: []) from rfl]
    rw [strFindAux_append (fun c => c == ':') ('p' :: ',' :: s) (':' :: 'f' :: []) 0 h1]
    rw [show strFindAux (fun c => c == ':') (':' :: 'f' :: []) (0 + ('p' :: ',' :: s).length)
        = some (0 + ('p' :: ',' :: s).length) from rfl]
    simp only [Option.some.injEq, List.length_cons]
    omega
  have htake : (('p' :: ',' :: s) ++ (':' :: 'f' :: [])).take (s.length + 2) = 'p' :: ',' :: s :=
    List.take_left' (by simp only [List.length_cons])
  have hdrop : (('p' :: ',' :: s) ++ (':' :: 'f' :: [])).drop (s.length + 2 + 1) = 'f' :: [] := by
    have hd1 : (('p' :: ',' :: s) ++ (':' :: 'f' :: [])).drop (s.length + 2) = ':' :: 'f' :: [] :=
      List.drop_left' (by simp only [List.length_cons])
    calc (('p' :: ',' :: s) ++ (':' :: 'f' :: [])).drop (s.length + 2 + 1)
        = ((('p' :: ',' :: s) ++ (':' :: 'f' :: [])).drop (s.length + 2)).drop 1 :=
          (List.drop_drop 1 (s.length + 2) (('p' :: ',' :: s) ++ (':' :: 'f' :: []))).symm
      _ = (':' :: 'f' :: []).drop 1 := by rw [hd1]
      _ = 'f' :: [] := rfl
  unfold getCephFile fillCephFile
  rw [hcolon]
  dsimp only
  rw [htake, hdrop]
  exact fillCephFileParams_bad_nb_field s e
    (fun c hc => ⟨(hchars c hc).1, (hchars c hc).2.2⟩) hne hs _

/-- Helper: a bad stripe-count string supplied through the ambient
environment aborts getCephFile with the parse error. -/
theorem getCephFile_bad_nb_env (s : Str) (e : ParseErr) (hs : stoui s = .error e) :
    getCephFile ['f'] (some { emptyEnv with cephNbStripes := some s }) = .error e := by
  have hUE : ∀ f' : CephFile,
      fillCephUserId [] (some { emptyEnv with cephNbStripes := some s }) f'
        = (0, { f' with userId := g_defaultParams.userId }) := fun f' => rfl
  have hPE : ∀ f' : CephFile,
      fillCephPool [] 0 (some { emptyEnv with cephNbStripes := some s }) f'
        = (0, { f' with pool := g_defaultParams.pool }) := fun f' => rfl
  unfold getCephFile fillCephFile
  rw [show strFind (fun c => c == ':') ['f'] 0 = none from rfl]
  dsimp only
  unfold fillCephFileParams
  rw [hUE]
  dsimp only
  rw [hPE]
  dsimp only
  rw [fillCephNbStripes_bad_env s e hs]
  rfl

/-- Helper: fillCephUserId on params of the shape p,1,FIELD (no '@'). -/
theorem fillCephUserId_pcomma1 (t : Str) (hchars : ∀ c ∈ t, (c == '@') = false) (f : CephFile) :
    fillCephUserId ('p' :: ',' :: '1' :: ',' :: t) none f
      = (0, { f with userId := g_defaultParams.userId }) := by
  unfold fillCephUserId
  rw [show strFind (fun c => c == '@') ('p' :: ',' :: '1' :: ',' :: t) 0
      = strFindAux (fun c => c == '@') t 4 from rfl]
  rw [strFindAux_all_none _ t 4 hchars]
  rfl

/-- Helper: fillCephPool on params of the shape p,1,FIELD takes pool p. -/
theorem fillCephPool_pcomma1 (t : Str) (f : CephFile) :
    fillCephPool ('p' :: ',' :: '1' :: ',' :: t) 0 none f = (2, { f with pool := ['p'] }) := by
  unfold fillCephPool
  rw [show strFind (fun c => c == ',') ('p' :: ',' :: '1' :: ',' :: t) 0 = some 1 from rfl]
  rfl

/-- Helper: the stripe-count field 1 of params p,1,FIELD parses to 1. -/
theorem fillCephNbStripes_one (t : Str) (f : CephFile) :
    fillCephNbStripes ('p' :: ',' :: '1' :: ',' :: t) 2 none f
      = .ok (4, { f with nbStripes := 1 }) := by
  unfold fillCephNbStripes
  rw [show strFind (fun c => c == ',') ('p' :: ',' :: '1' :: ',' :: t) 2 = some 3 from rfl]
  rfl

/-- Helper: the comma-free stripe-unit field embedded in p,1,FIELD runs
through stoull and its parse error aborts the resolution. -/
theorem fillCephStripeUnit_bad_field (t : Str) (e : ParseErr)
    (hchars : ∀ c ∈ t, (c == ',') = false)
    (hne : t ≠ []) (ht : stoull t = .error e) (f : CephFile) :
    fillCephStripeUnit ('p' :: ',' :: '1' :: ',' :: t) 4 none f = .error e := by
  unfold fillCephStripeUnit
  rw [show strFind (fun c => c == ',') ('p' :: ',' :: '1' :: ',' :: t) 4
      = strFindAux (fun c => c == ',') t 4 from rfl]
  rw [strFindAux_all_none _ t 4 hchars]
  dsimp only
  rw [if_neg (by
    simp only [List.length_cons]
    intro h0
    exact hne (List.length_eq_zero.mp (by omega)))]
  rw [show List.drop 4 ('p' :: ',' :: '1' :: ',' :: t) = t from rfl]
  rw [ht]
  rfl

/-- Helper: a bad path-embedded stripe-unit field aborts
fillCephFileParams. -/
theorem fillCephFileParams_bad_su_field (t : Str) (e : ParseErr)
    (hchars : ∀ c ∈ t, (c == ',') = false ∧ (c == '@') = false)
    (hne : t ≠ []) (ht : stoull t = .error e) (f : CephFile) :
    fillCephFileParams ('p' :: ',' :: '1' :: ',' :: t) none f = .error e := by
  unfold fillCephFileParams
  rw [fillCephUserId_pcomma1 t (fun c hc => (hchars c hc).2) f]
  dsimp only
  rw [fillCephPool_pcomma1 t]
  dsimp only
  rw [fillCephNbStripes_one t]
  rw [bind_ok_eq]
  dsimp only
  rw [fillCephStripeUnit_bad_field t e (fun c hc => (hchars c hc).1) hne ht]
  rfl

/-- Helper: a bad stripe-unit field embedded in the path p,1,FIELD:f aborts
getCephFile with the parse error. -/
theorem getCephFile_bad_su_field (t : Str) (e : ParseErr)
    (hchars : ∀ c ∈ t, (c == ',') = false ∧ (c == ':') = false ∧ (c == '@') = false)
    (hne : t ≠ []) (ht : stoull t = .error e) :
    getCephFile (('p' :: ',' :: '1' :: ',' :: t) ++ (':' :: 'f' :: [])) none = .error e := by
  have h1 : ∀ c ∈ ('p' :: ',' :: '1' :: ',' :: t), (fun c => c == ':') c = false := by
    intro c hc
    rcases List.mem_cons.mp hc with rfl | hc2
    · decide
    rcases List.mem_cons.mp hc2 with rfl | hc3
    · decide
    rcases List.mem_cons.mp hc3 with rfl | hc4
    · decide
    rcases List.mem_cons.mp hc4 with rfl | hc5
    · decide
    exact (hchars c hc5).2.1
  have hcolon : strFind (fun c => c == ':')
      (('p' :: ',' :: '1' :: ',' :: t) ++ (':' :: 'f' :: [])) 0 = some (t.length + 4) := by
    unfold strFind
    rw [show List.drop 0 (('p' :: ',' :: '1' :: ',' :: t) ++ (':' :: 'f' :: []))
        = ('p' :: ',' :: '1' :: ',' :: t) ++ (':' :: 'f' :: []) from rfl]
    rw [strFindAux_append (fun c => c == ':') ('p' :: ',' :: '1' :: ',' :: t)
      (':' :: 'f' :: []) 0 h1]
    rw [show strFindAux (fun c => c == ':') (':' :: 'f' :: [])
        (0 + ('p' :: ',' :: '1' :: ',' :: t).length)
        = some (0 + ('p' :: ',' :: '1' :: ',' :: t).length) from rfl]
    simp only [Option.some.injEq, List.length_cons]
    omega
  have htake : (('p' :: ',' :: '1' :: ',' :: t) ++ (':' :: 'f' :: [])).take (t.length + 4)
      = 'p' :: ',' :: '1' :: ',' :: t :=
    List.take_left' (by simp only [List.length_cons])
  have hdrop : (('p' :: ',' :: '1' :: ',' :: t) ++ (':' :: 'f' :: [])).drop (t.length + 4 + 1)
      = 'f' :: [] := by
    have hd1 : (('p' :: ',' :: '1' :: ',' :: t) ++ (':' :: 'f' :: [])).drop (t.length + 4)
        = ':' :: 'f' :: [] :=
      List.drop_left' (by simp only [List.length_cons])
    calc (('p' :: ',' :: '1' :: ',' :: t) ++ (':' :: 'f' :: [])).drop (t.length + 4 + 1)
        = ((('p' :: ',' :: '1' :: ',' :: t) ++ (':' :: 'f' :: [])).drop (t.length + 4)).drop 1 :=
          (List.drop_drop 1 (t.length + 4)
            (('p' :: ',' :: '1' :: ',' :: t) ++ (':' :: 'f' :: []))).symm
      _ = (':' :: 'f' :: []).drop 1 := by rw [hd1]
      _ = 'f' :: [] := rfl
  unfold getCephFile fillCephFile
  rw [hcolon]
  dsimp only
  rw [htake, hdrop]
  exact fillCephFileParams_bad_su_field t e
    (fun c hc => ⟨(hchars c hc).1, (hchars c hc).2.2⟩) hne ht _

/-- Helper: a bad stripe-unit string supplied through the ambient
environment aborts getCephFile with the parse error. -/
theorem getCephFile_bad_su_env (t : Str) (e : ParseErr) (ht : stoull t = .error e) :
    getCephFile ['f'] (some { emptyEnv with cephStripeUnit := some t }) = .error e := by
  have hUE : ∀ f' : CephFile,
      fillCephUserId [] (some { emptyEnv with cephStripeUnit := some t }) f'
        = (0, { f' with userId := g_defaultParams.userId }) := fun f' => rfl
  have hPE : ∀ f' : CephFile,
      fillCephPool [] 0 (some { emptyEnv with cephStripeUnit := some t }) f'
        = (0, { f' with pool := g_defaultParams.pool }) := fun f' => rfl
  have hNbE : ∀ f' : CephFile,
      fillCephNbStripes [] 0 (some { emptyEnv with cephStripeUnit := some t }) f'
        = .ok (0, { f' with nbStripes := g_defaultParams.nbStripes }) := fun f' => rfl
  have hSUE : ∀ f' : CephFile,
      fillCephStripeUnit [] 0 (some { emptyEnv with cephStripeUnit := some t }) f'
        = .error e := by
    intro f'
    unfold fillCephStripeUnit
    rw [show strFind (fun c => c == ',') ([] : Str) 0 = none from rfl]
    dsimp only
    rw [if_pos (show ([] : Str).length = 0 from rfl)]
    rw [show envGet (some { emptyEnv with cephStripeUnit := some t }) EnvM.cephStripeUnit
        = some t from rfl]
    dsimp only
    rw [ht]
    rfl
  unfold getCephFile fillCephFile
  rw [show strFind (fun c => c == ':') ['f'] 0 = none from rfl]
  dsimp only
  unfold fillCephFileParams
  rw [hUE]
  dsimp only
  rw [hPE]
  dsimp only
  rw [hNbE]
  rw [bind_ok_eq]
  dsimp only
  rw [hSUE]
  rfl

/-- Helper: a bad object-size string supplied through the ambient
environment aborts getCephFile with the parse error. -/
theorem getCephFile_bad_os_env (u : Str) (e : ParseErr) (hu : stoull u = .error e) :
    getCephFile ['f'] (some { emptyEnv with cephObjectSize := some u }) = .error e := by
  have hUE : ∀ f' : CephFile,
      fillCephUserId [] (some { emptyEnv with cephObjectSize := some u }) f'
        = (0, { f' with userId := g_defaultParams.userId }) := fun f' => rfl
  have hPE : ∀ f' : CephFile,
      fillCephPool [] 0 (some { emptyEnv with cephObjectSize := some u }) f'
        = (0, { f' with pool := g_defaultParams.pool }) := fun f' => rfl
  have hNbE : ∀ f' : CephFile,
      fillCephNbStripes [] 0 (some { emptyEnv with cephObjectSize := some u }) f'
        = .ok (0, { f' with nbStripes := g_defaultParams.nbStripes }) := fun f' => rfl
  have hSUE : ∀ f' : CephFile,
      fillCephStripeUnit [] 0 (some { emptyEnv with cephObjectSize := some u }) f'
        = .ok (0, { f' with stripeUnit := g_defaultParams.stripeUnit }) := fun f' => rfl
  have hOSE : ∀ f' : CephFile,
      fillCephObjectSize [] 0 (some { emptyEnv with cephObjectSize := some u }) f'
        = .error e := by
    intro f'
    unfold fillCephObjectSize
    rw [if_pos (show ([] : Str).length = 0 from rfl)]
    rw [show envGet (some { emptyEnv with cephObjectSize := some u }) EnvM.cephObjectSize
        = some u from rfl]
    dsimp only
    rw [hu]
    rfl
  unfold getCephFile fillCephFile
  rw [show strFind (fun c => c == ':') ['f'] 0 = none from rfl]
  dsimp only
  unfold fillCephFileParams
  rw [hUE]
  dsimp only
  rw [hPE]
  dsimp only
  rw [hNbE]
  rw [bind_ok_eq]
  dsimp only
  rw [hSUE]
  rw [bind_ok_eq]
  dsimp only
  rw [hOSE]

/-- Helper: fillCephUserId on params of the shape p,1,64,FIELD (no '@'). -/
theorem fillCephUserId_pcomma164 (u : Str) (hchars : ∀ c ∈ u, (c == '@') = false)
    (f : CephFile) :
    fillCephUserId ('p' :: ',' :: '1' :: ',' :: '6' :: '4' :: ',' :: u) none f
      = (0, { f with userId := g_defaultParams.userId }) := by
  unfold fillCephUserId
  rw [show strFind (fun c => c == '@') ('p' :: ',' :: '1' :: ',' :: '6' :: '4' :: ',' :: u) 0
      = strFindAux (fun c => c == '@') u 7 from rfl]
  rw [strFindAux_all_none _ u 7 hchars]
  rfl

/-- Helper: fillCephPool on params of the shape p,1,64,FIELD takes pool p. -/
theorem fillCephPool_pcomma164 (u : Str) (f : CephFile) :
    fillCephPool ('p' :: ',' :: '1' :: ',' :: '6' :: '4' :: ',' :: u) 0 none f
      = (2, { f with pool := ['p'] }) := by
  unfold fillCephPool
  rw [show strFind (fun c => c == ',') ('p' :: ',' :: '1' :: ',' :: '6' :: '4' :: ',' :: u) 0
      = some 1 from rfl]
  rfl

/-- Helper: the stripe-count field 1 of params p,1,64,FIELD parses to 1. -/
theorem fillCephNbStripes_one164 (u : Str) (f : CephFile) :
    fillCephNbStripes ('p' :: ',' :: '1' :: ',' :: '6' :: '4' :: ',' :: u) 2 none f
      = .ok (4, { f with nbStripes := 1 }) := by
  unfold fillCephNbStripes
  rw [show strFind (fun c => c == ',') ('p' :: ',' :: '1' :: ',' :: '6' :: '4' :: ',' :: u) 2
      = some 3 from rfl]
  rfl

/-- Helper: the stripe-unit field 64 of params p,1,64,FIELD parses to 64. -/
theorem fillCephStripeUnit_sixtyfour (u : Str) (f : CephFile) :
    fillCephStripeUnit ('p' :: ',' :: '1' :: ',' :: '6' :: '4' :: ',' :: u) 4 none f
      = .ok (7, { f with stripeUnit := 64 }) := by
  unfold fillCephStripeUnit
  rw [show strFind (fun c => c == ',') ('p' :: ',' :: '1' :: ',' :: '6' :: '4' :: ',' :: u) 4
      = some 6 from rfl]
  rfl

/-- Helper: the path-embedded object-size field of params p,1,64,FIELD runs
through stoull (XrdCephPosix.cc:251) and its parse error aborts the
resolution. -/
theorem fillCephObjectSize_bad_field (u : Str) (e : ParseErr)
    (hne : u ≠ []) (hu : stoull u = .error e) (f : CephFile) :
    fillCephObjectSize ('p' :: ',' :: '1' :: ',' :: '6' :: '4' :: ',' :: u) 7 none f
      = .error e := by
  unfold fillCephObjectSize
  rw [if_neg (by
    simp only [List.length_cons]
    intro h0
    exact hne (List.length_eq_zero.mp (by omega)))]
  rw [show List.drop 7 ('p' :: ',' :: '1' :: ',' :: '6' :: '4' :: ',' :: u) = u from rfl]
  rw [hu]
  rfl

/-- Helper: a bad path-embedded object-size field aborts
fillCephFileParams. -/
theorem fillCephFileParams_bad_os_field (u : Str) (e : ParseErr)
    (hchars : ∀ c ∈ u, (c == '@') = false)
    (hne : u ≠ []) (hu : stoull u = .error e) (f : CephFile) :
    fillCephFileParams ('p' :: ',' :: '1' :: ',' :: '6' :: '4' :: ',' :: u) none f
      = .error e := by
  unfold fillCephFileParams
  rw [fillCephUserId_pcomma164 u hchars f]
  dsimp only
  rw [fillCephPool_pcomma164 u]
  dsimp only
  rw [fillCephNbStripes_one164 u]
  rw [bind_ok_eq]
  dsimp only
  rw [fillCephStripeUnit_sixtyfour u]
  rw [bind_ok_eq]
  dsimp only
  rw [fillCephObjectSize_bad_field u e hne hu]

/-- Helper: a bad object-size field embedded in the path p,1,64,FIELD:f
aborts getCephFile with the parse error. -/
theorem getCephFile_bad_os_field (u : Str) (e : ParseErr)
    (hchars : ∀ c ∈ u, (c == ':') = false ∧ (c == '@') = false)
    (hne : u ≠ []) (hu : stoull u = .error e) :
    getCephFile (('p' :: ',' :: '1' :: ',' :: '6' :: '4' :: ',' :: u) ++ (':' :: 'f' :: []))
      none = .error e := by
  have h1 : ∀ c ∈ ('p' :: ',' :: '1' :: ',' :: '6' :: '4' :: ',' :: u),
      (fun c => c == ':') c = false := by
    intro c hc
    rcases List.mem_cons.mp hc with rfl | hc2
    · decide
    rcases List.mem_cons.mp hc2 with rfl | hc3
    · decide
    rcases List.mem_cons.mp hc3 with rfl | hc4
    · decide
    rcases List.mem_cons.mp hc4 with rfl | hc5
    · decide
    rcases List.mem_cons.mp hc5 with rfl | hc6
    · decide
    rcases List.mem_cons.mp hc6 with rfl | hc7
    · decide
    rcases List.mem_cons.mp hc7 with rfl | hc8
    · decide
    exact (hchars c hc8).1
  have hcolon : strFind (fun c => c == ':')
      (('p' :: ',' :: '1' :: ',' :: '6' :: '4' :: ',' :: u) ++ (':' :: 'f' :: [])) 0
      = some (u.length + 7) := by
    unfold strFind
    rw [show List.drop 0
        (('p' :: ',' :: '1' :: ',' :: '6' :: '4' :: ',' :: u) ++ (':' :: 'f' :: []))
        = ('p' :: ',' :: '1' :: ',' :: '6' :: '4' :: ',' :: u) ++ (':' :: 'f' :: []) from rfl]
    rw [strFindAux_append (fun c => c == ':') ('p' :: ',' :: '1' :: ',' :: '6' :: '4' :: ',' :: u)
      (':' :: 'f' :: []) 0 h1]
    rw [show strFindAux (fun c => c == ':') (':' :: 'f' :: [])
        (0 + ('p' :: ',' :: '1' :: ',' :: '6' :: '4' :: ',' :: u).length)
        = some (0 + ('p' :: ',' :: '1' :: ',' :: '6' :: '4' :: ',' :: u).length) from rfl]
    simp only [Option.some.injEq, List.length_cons]
    omega
  have htake : (('p' :: ',' :: '1' :: ',' :: '6' :: '4' :: ',' :: u)
      ++ (':' :: 'f' :: [])).take (u.length + 7)
      = 'p' :: ',' :: '1' :: ',' :: '6' :: '4' :: ',' :: u :=
    List.take_left' (by simp only [List.length_cons])
  have hdrop : (('p' :: ',' :: '1' :: ',' :: '6' :: '4' :: ',' :: u)
      ++ (':' :: 'f' :: [])).drop (u.length + 7 + 1) = 'f' :: [] := by
    have hd1 : (('p' :: ',' :: '1' :: ',' :: '6' :: '4' :: ',' :: u)
        ++ (':' :: 'f' :: [])).drop (u.length + 7) = ':' :: 'f' :: [] :=
      List.drop_left' (by simp only [List.length_cons])
    calc (('p' :: ',' :: '1' :: ',' :: '6' :: '4' :: ',' :: u)
          ++ (':' :: 'f' :: [])).drop (u.length + 7 + 1)
        = ((('p' :: ',' :: '1' :: ',' :: '6' :: '4' :: ',' :: u)
            ++ (':' :: 'f' :: [])).drop (u.length + 7)).drop 1 :=
          (List.drop_drop 1 (u.length + 7)
            (('p' :: ',' :: '1' :: ',' :: '6' :: '4' :: ',' :: u) ++ (':' :: 'f' :: []))).symm
      _ = (':' :: 'f' :: []).drop 1 := by rw [hd1]
      _ = 'f' :: [] := rfl
  unfold getCephFile fillCephFile
  rw [hcolon]
  dsimp only
  rw [htake, hdrop]
  exact fillCephFileParams_bad_os_field u e (fun c hc => (hchars c hc).2) hne hu _

/-- C9, counterexample.  The claim says every non-numeric layout field,
embedded in the path or supplied via the environment, raises InvalidLayout
rather than being silently replaced.  The empty string is non-numeric, yet
the parser accepts it silently as 0: strtoul consumes no digit, resets the
end pointer to the start of the string — which for the empty string IS the
terminating NUL — and returns 0 without error.  So the path p,,64:f (empty
stripe-count field between the commas) resolves with nbStripes = 0, and an
empty cephNbStripes environment entry likewise yields nbStripes = 0; no
condition is raised in either case. -/
theorem empty_layout_field_cex :
    getCephFile "p,,64:f".toList none
      = .ok { name := "f".toList, pool := "p".toList, userId := "admin".toList,
              nbStripes := 0, stripeUnit := 64, objectSize := 4194304 }
    ∧ getCephFile "f".toList (some { emptyEnv with cephNbStripes := some [] })
      = .ok { name := "f".toList, pool := "default".toList, userId := "admin".toList,
              nbStripes := 0, stripeUnit := 4194304, objectSize := 4194304 }
    ∧ stoui [] = .ok 0 := by
  decide

/-- C9, amended.  Every layout field string that is nonempty and non-numeric
(stoui/stoull rejects it: no digits after the optional whitespace and sign,
trailing non-digit characters, or a value out of the field's unsigned range
— 32-bit for the stripe count, 64-bit for stripe unit and object size)
raises the InvalidLayout condition, whether embedded in a path or supplied
via the ambient environment, and the condition propagates to the adapter's
caller (here through ceph_posix_open_path) rather than being silently
replaced by a default; the empty string is the one exception, parsed
silently as 0 (see the counterexample). -/
theorem invalid_layout_field_raises (s t u : Str) (es et eu : ParseErr)
    (hsChars : ∀ c ∈ s, (c == ',') = false ∧ (c == ':') = false ∧ (c == '@') = false)
    (hsne : s ≠ []) (hs : stoui s = .error es)
    (htChars : ∀ c ∈ t, (c == ',') = false ∧ (c == ':') = false ∧ (c == '@') = false)
    (htne : t ≠ []) (ht : stoull t = .error et)
    (huChars : ∀ c ∈ u, (c == ':') = false ∧ (c == '@') = false)
    (hune : u ≠ []) (hu : stoull u = .error eu)
    (flags mode : Nat) (st : FdState) :
    getCephFile (('p' :: ',' :: s) ++ (':' :: 'f' :: [])) none = .error es
    ∧ getCephFile ['f'] (some { emptyEnv with cephNbStripes := some s }) = .error es
    ∧ getCephFile (('p' :: ',' :: '1' :: ',' :: t) ++ (':' :: 'f' :: [])) none = .error et
    ∧ getCephFile ['f'] (some { emptyEnv with cephStripeUnit := some t }) = .error et
    ∧ getCephFile (('p' :: ',' :: '1' :: ',' :: '6' :: '4' :: ',' :: u) ++ (':' :: 'f' :: []))
        none = .error eu
    ∧ getCephFile ['f'] (some { emptyEnv with cephObjectSize := some u }) = .error eu
    ∧ ceph_posix_open_path true (('p' :: ',' :: s) ++ (':' :: 'f' :: [])) none flags mode st
        = .error es := by
  refine ⟨getCephFile_bad_nb_field s es hsChars hsne hs,
    getCephFile_bad_nb_env s es hs,
    getCephFile_bad_su_field t et htChars htne ht,
    getCephFile_bad_su_env t et ht,
    getCephFile_bad_os_field u eu huChars hune hu,
    getCephFile_bad_os_env u eu hu, ?_⟩
  unfold ceph_posix_open_path
  rw [getCephFile_bad_nb_field s es hsChars hsne hs]
  rfl

/-- C9, witness for the amended theorem: the non-numeric stripe count abc
(invalid argument), the stripe unit 18446744073709551616 = 2 ^ 64 (out of
range for stoull), and the non-numeric object size junk, each embedded in a
path and supplied through the environment per the corresponding conjunct. -/
theorem invalid_layout_field_raises_witness :
    getCephFile (('p' :: ',' :: "abc".toList) ++ (':' :: 'f' :: [])) none
      = .error ParseErr.invalidArgument
    ∧ getCephFile ['f'] (some { emptyEnv with cephNbStripes := some "abc".toList })
      = .error ParseErr.invalidArgument
    ∧ getCephFile (('p' :: ',' :: '1' :: ',' :: "18446744073709551616".toList)
        ++ (':' :: 'f' :: [])) none = .error ParseErr.outOfRange
    ∧ getCephFile ['f']
        (some { emptyEnv with cephStripeUnit := some "18446744073709551616".toList })
      = .error ParseErr.outOfRange
    ∧ getCephFile (('p' :: ',' :: '1' :: ',' :: '6' :: '4' :: ',' :: "junk".toList)
        ++ (':' :: 'f' :: [])) none = .error ParseErr.invalidArgument
    ∧ getCephFile ['f'] (some { emptyEnv with cephObjectSize := some "junk".toList })
      = .error ParseErr.invalidArgument
    ∧ ceph_posix_open_path true (('p' :: ',' :: "abc".toList) ++ (':' :: 'f' :: [])) none
        0 0 stExisting = .error ParseErr.invalidArgument :=
  invalid_layout_field_raises "abc".toList "18446744073709551616".toList "junk".toList
    ParseErr.invalidArgument ParseErr.outOfRange ParseErr.invalidArgument
    (by decide) (by decide) (by decide) (by decide) (by decide) (by decide)
    (by decide) (by decide) (by decide)
    0 0 stExisting
